import Mathlib

/-!
Verification of the AnkiTect adaptive media-enrichment pipeline.

This development shallowly embeds the pipeline core of the repository —
the rate-signal tracker and backoff computation (`src/deck/builder.py`),
the cache ledger (`src/deck/cache.py`), the media path generator
(`src/utils/paths.py`), the text-parsing helpers (`src/utils/parsing.py`),
the audio and image fetchers (`src/fetchers/audio.py`,
`src/fetchers/images.py`) and the per-row orchestrator
(`AnkiDeckBuilder.process_row`) — as executable Lean functions, and proves
or refutes the specification's claims about them.

External effects (the TTS and image-generation network calls, the media
directory, timestamps, injected exceptions) are supplied by explicit
oracle/environment records, so every function here is a pure, executable
translation of the corresponding Python code.
-/

namespace AnkiTect

/-! ## Python string primitives (ASCII fragment)

Python's `str.strip()` and the `re` module's `\s` class cover Unicode
whitespace; the embedding covers the ASCII whitespace characters
`' '`, `\t`, `\n`, `\r`, `\x0b`, `\x0c`, which is exact on the ASCII
strings considered throughout this development. -/

/-- ASCII whitespace, as matched by Python's `\s` and stripped by `str.strip()`. -/
def isPySpace (c : Char) : Bool :=
  c = ' ' ∨ c = '\t' ∨ c = '\n' ∨ c = '\r' ∨ c = '\x0b' ∨ c = '\x0c'

/-- Python `str.strip()` on the character list. -/
def stripChars (l : List Char) : List Char :=
  ((l.dropWhile isPySpace).reverse.dropWhile isPySpace).reverse

/-- Python `str.strip()`. -/
def pyStrip (s : String) : String :=
  String.mk (stripChars s.toList)

/-! ## Rate Signal Tracker (`AnkiDeckBuilder`, `src/deck/builder.py`)

The builder's `adaptive_stats` dictionary and the two methods that touch
it, `_adjust_concurrency` (the `record_outcome` of the spec) and
`_get_backoff_delay` (the spec's `current_backoff_seconds`). The float
arithmetic of `_get_backoff_delay` involves only `0.5`, small powers of
two, and `10.0`, all exactly representable, so `Rat` models it exactly. -/

/-- The `adaptive_stats` dictionary of `AnkiDeckBuilder.__init__`. -/
structure AdaptiveStats where
  consecutive_success : Nat
  consecutive_failures : Nat
  last_status_429 : Bool
  concurrency_adjustments : Nat
deriving Repr, DecidableEq

/-- The initial `adaptive_stats` value set in `AnkiDeckBuilder.__init__`. -/
def AdaptiveStats.init : AdaptiveStats :=
  { consecutive_success := 0
    consecutive_failures := 0
    last_status_429 := false
    concurrency_adjustments := 0 }

/-- Python truthiness test `status_code and status_code < 400` for an
optional non-negative status code: `None` and `0` are falsy. -/
def statusClearSuccess (status_code : Option Nat) : Bool :=
  match status_code with
  | some c => c ≠ 0 && c < 400
  | none => false

/-- `AnkiDeckBuilder._adjust_concurrency` (`src/deck/builder.py`):
the state update on the `adaptive_stats` dictionary for one recorded
outcome, following the `if/elif/elif` chain of the source. -/
def adjust_concurrency (status_code : Option Nat) (is_success : Option Bool)
    (s : AdaptiveStats) : AdaptiveStats :=
  if status_code = some 429 then
    { s with
      last_status_429 := true
      consecutive_success := 0
      consecutive_failures := s.consecutive_failures + 1
      concurrency_adjustments := s.concurrency_adjustments + 1 }
  else if statusClearSuccess status_code then
    { s with
      consecutive_failures := 0
      consecutive_success := s.consecutive_success + 1 }
  else if is_success = some false then
    { s with
      consecutive_success := 0
      consecutive_failures := s.consecutive_failures + 1 }
  else
    s

/-- Python's two-argument `min` on rationals, written out so that it
evaluates by kernel reduction. -/
def pymin (a b : Rat) : Rat := if a ≤ b then a else b

/-- `AnkiDeckBuilder._get_backoff_delay` (`src/deck/builder.py`):
`0.0` when `consecutive_failures == 0`, otherwise
`min(10.0, 0.5 * (2 ** min(failures, 4)))`. -/
def get_backoff_delay (consecutive_failures : Nat) : Rat :=
  if consecutive_failures = 0 then 0
  else pymin 10 ((1 / 2) * 2 ^ (min consecutive_failures 4))

/-- The closed form claimed by the spec for every failure count `f`:
`min(10.0, 0.5 * 2 ** min(f, 4))`, with no zero case. -/
def spec_backoff_formula (f : Nat) : Rat :=
  pymin 10 ((1 / 2) * 2 ^ (min f 4))

/-! ## SHA-256 (FIPS 180-4)

The builder derives card identifiers with `hashlib.sha256(...).hexdigest()`
(`MediaPathGenerator.generate_card_uuid`, `src/utils/paths.py`). `hashlib`
implements FIPS 180-4 SHA-256, embedded here executably over byte lists so
that concrete identifiers can be computed inside proofs. -/

/-- Modulus of 32-bit words. -/
def w32 : Nat := 4294967296

/-- Right rotation of a 32-bit word. -/
def rotr32 (x n : Nat) : Nat := ((x >>> n) ||| (x <<< (32 - n))) % w32

/-- Addition modulo 2^32. -/
def add32 (a b : Nat) : Nat := (a + b) % w32

/-- The SHA-256 `Ch` function; complement taken within 32 bits. -/
def shaCh (x y z : Nat) : Nat := (x &&& y) ^^^ ((x ^^^ 4294967295) &&& z)

/-- The SHA-256 `Maj` function. -/
def shaMaj (x y z : Nat) : Nat := (x &&& y) ^^^ (x &&& z) ^^^ (y &&& z)

/-- The SHA-256 big sigma-0 function. -/
def shaS0 (x : Nat) : Nat := rotr32 x 2 ^^^ rotr32 x 13 ^^^ rotr32 x 22

/-- The SHA-256 big sigma-1 function. -/
def shaS1 (x : Nat) : Nat := rotr32 x 6 ^^^ rotr32 x 11 ^^^ rotr32 x 25

/-- The SHA-256 small sigma-0 function. -/
def shals0 (x : Nat) : Nat := rotr32 x 7 ^^^ rotr32 x 18 ^^^ (x >>> 3)

/-- The SHA-256 small sigma-1 function. -/
def shals1 (x : Nat) : Nat := rotr32 x 17 ^^^ rotr32 x 19 ^^^ (x >>> 10)

/-- The 64 SHA-256 round constants. -/
def shaK : List Nat :=
  [1116352408, 1899447441, 3049323471, 3921009573, 961987163,
   1508970993, 2453635748, 2870763221, 3624381080, 310598401,
   607225278, 1426881987, 1925078388, 2162078206, 2614888103,
   3248222580, 3835390401, 4022224774, 264347078, 604807628,
   770255983, 1249150122, 1555081692, 1996064986, 2554220882,
   2821834349, 2952996808, 3210313671, 3336571891, 3584528711,
   113926993, 338241895, 666307205, 773529912, 1294757372,
   1396182291, 1695183700, 1986661051, 2177026350, 2456956037,
   2730485921, 2820302411, 3259730800, 3345764771, 3516065817,
   3600352804, 4094571909, 275423344, 430227734, 506948616,
   659060556, 883997877, 958139571, 1322822218, 1537002063,
   1747873779, 1955562222, 2024104815, 2227730452, 2361852424,
   2428436474, 2756734187, 3204031479, 3329325298]

/-- The SHA-256 initial hash state. -/
def shaH0 : List Nat :=
  [1779033703, 3144134277, 1013904242, 2773480762,
   1359893119, 2600822924, 528734635, 1541459225]

/-- Big-endian bytes of `n`, `len` bytes wide. -/
def natToBytesBE (n : Nat) (len : Nat) : List Nat :=
  match len with
  | 0 => []
  | l + 1 => natToBytesBE (n / 256) l ++ [n % 256]

/-- Group bytes into big-endian 32-bit words. -/
def bytesToWords : List Nat → List Nat
  | b0 :: b1 :: b2 :: b3 :: rest =>
      (((b0 * 256 + b1) * 256 + b2) * 256 + b3) :: bytesToWords rest
  | _ => []

/-- Extend a 16-word message schedule by `fuel` further words. -/
def shaExtend (w : List Nat) : Nat → List Nat
  | 0 => w
  | fuel + 1 =>
      let n := w.length
      let v := add32 (add32 (shals1 (w.getD (n - 2) 0)) (w.getD (n - 7) 0))
        (add32 (shals0 (w.getD (n - 15) 0)) (w.getD (n - 16) 0))
      shaExtend (w ++ [v]) fuel

/-- One SHA-256 round on the eight working registers, with `kw` the sum of
the round constant and the schedule word. -/
def shaRound (st : List Nat) (kw : Nat) : List Nat :=
  match st with
  | [a, b, c, d, e, f, g, h] =>
      let t1 := add32 h (add32 (shaS1 e) (add32 (shaCh e f g) kw))
      let t2 := add32 (shaS0 a) (shaMaj a b c)
      [add32 t1 t2, a, b, c, add32 d t1, e, f, g]
  | _ => st

/-- Compress one 64-byte block into the hash state. -/
def shaCompress (hs : List Nat) (block : List Nat) : List Nat :=
  let w := shaExtend (bytesToWords block) 48
  let kw := (shaK.zip w).map (fun p => add32 p.1 p.2)
  let st := kw.foldl shaRound hs
  (hs.zip st).map (fun p => add32 p.1 p.2)

/-- SHA-256 padding: a `0x80` byte, zeros to 56 mod 64, then the bit length
as eight big-endian bytes. -/
def shaPad (msg : List Nat) : List Nat :=
  let L := msg.length
  let k := (120 - ((L + 1) % 64)) % 64
  msg ++ [0x80] ++ List.replicate k 0 ++ natToBytesBE (8 * L) 8

/-- Split a byte list into 64-byte blocks (the fuel bounds the recursion). -/
def chunk64 (fuel : Nat) (l : List Nat) : List (List Nat) :=
  match fuel with
  | 0 => []
  | f + 1 => if l = [] then [] else l.take 64 :: chunk64 f (l.drop 64)

/-- SHA-256 digest of a byte list, as 32 bytes. -/
def sha256bytes (msg : List Nat) : List Nat :=
  let padded := shaPad msg
  let final := (chunk64 padded.length padded).foldl shaCompress shaH0
  (final.map (fun wrd => natToBytesBE wrd 4)).flatten

/-- Lowercase hexadecimal digit. -/
def hexDigit (n : Nat) : Char :=
  if n < 10 then Char.ofNat (48 + n) else Char.ofNat (87 + n)

/-- Lowercase hexadecimal rendering of a byte list, as `hexdigest()` does. -/
def bytesToHex (l : List Nat) : String :=
  String.mk ((l.map (fun b => [hexDigit (b / 16), hexDigit (b % 16)])).flatten)

/-- UTF-8 encoding of one character, as Python's `str.encode()` produces. -/
def utf8EncodeChar (c : Char) : List Nat :=
  let n := c.toNat
  if n < 0x80 then [n]
  else if n < 0x800 then [0xC0 + n / 64, 0x80 + n % 64]
  else if n < 0x10000 then
    [0xE0 + n / 4096, 0x80 + (n / 64) % 64, 0x80 + n % 64]
  else
    [0xF0 + n / 262144, 0x80 + (n / 4096) % 64, 0x80 + (n / 64) % 64,
     0x80 + n % 64]

/-- UTF-8 encoding of a string. -/
def utf8Encode (s : String) : List Nat := (s.toList.map utf8EncodeChar).flatten

/-- `hashlib.sha256(s.encode()).hexdigest()`. -/
def sha256hex (s : String) : String := bytesToHex (sha256bytes (utf8Encode s))

/-! ## Media path generator (`src/utils/paths.py`)

The `MediaPathGenerator` class: card identifier derivation and the five
media filenames. `Config.VOICE_ID` is `"CONRAD"` for the configured
language `"DE"` (`src/config/settings.py`, `src/config/languages.py`);
Python's `voice_id or Config.VOICE_ID` treats `None` and `""` as absent. -/

namespace MediaPathGenerator

/-- `Config.VOICE_ID` for the configured language `DE`. -/
def VOICE_ID : String := "CONRAD"

/-- Version suffix for cache invalidation on format changes. -/
def VERSION : String := "v54"

/-- Audio file extension. -/
def AUDIO_EXT : String := ".mp3"

/-- Image file extension. -/
def IMAGE_EXT : String := ".jpg"

/-- Python's `voice_id or Config.VOICE_ID`. -/
def resolveVoice (voice_id : Option String) : String :=
  match voice_id with
  | some v => if v = "" then VOICE_ID else v
  | none => VOICE_ID

/-- `MediaPathGenerator.audio_word`: `f"_word_{card_uuid}_{vid}_{VERSION}{AUDIO_EXT}"`. -/
def audio_word (card_uuid : String) (voice_id : Option String) : String :=
  "_word_" ++ card_uuid ++ "_" ++ resolveVoice voice_id ++ "_" ++ VERSION ++ AUDIO_EXT

/-- `MediaPathGenerator.audio_sentence`:
`f"_sent_{index}_{card_uuid}_{vid}_{VERSION}{AUDIO_EXT}"`. -/
def audio_sentence (card_uuid : String) (index : Nat) (voice_id : Option String) : String :=
  "_sent_" ++ toString index ++ "_" ++ card_uuid ++ "_" ++ resolveVoice voice_id
    ++ "_" ++ VERSION ++ AUDIO_EXT

/-- `MediaPathGenerator.image`: `f"_img_{card_uuid}{IMAGE_EXT}"`. -/
def image (card_uuid : String) : String :=
  "_img_" ++ card_uuid ++ IMAGE_EXT

/-- The hashed string `f"{word}|{pos}|{meaning}|{index}"` of
`MediaPathGenerator.generate_card_uuid`. -/
def unique_string (word pos meaning : String) (index : Nat) : String :=
  word ++ "|" ++ pos ++ "|" ++ meaning ++ "|" ++ toString index

/-- `MediaPathGenerator.generate_card_uuid`: the first 32 hex characters of
the SHA-256 of the unique string, suffixed with the language code. -/
def generate_card_uuid (word pos meaning : String) (index : Nat)
    (language : String) : String :=
  let base_hash := String.mk ((sha256hex (unique_string word pos meaning index)).toList.take 32)
  base_hash ++ "_" ++ language

end MediaPathGenerator

/-- The dictionary returned by `MediaPathGenerator.get_all_media_files`. -/
structure MediaFiles where
  image : String
  word : String
  sent_1 : String
  sent_2 : String
  sent_3 : String
deriving Repr, DecidableEq

/-- `MediaPathGenerator.get_all_media_files`: the five media filenames of a
card, with the voice resolved once and passed to each audio name. -/
def get_all_media_files (card_uuid : String) (voice_id : Option String) : MediaFiles :=
  let vid := MediaPathGenerator.resolveVoice voice_id
  { image := MediaPathGenerator.image card_uuid
    word := MediaPathGenerator.audio_word card_uuid (some vid)
    sent_1 := MediaPathGenerator.audio_sentence card_uuid 1 (some vid)
    sent_2 := MediaPathGenerator.audio_sentence card_uuid 2 (some vid)
    sent_3 := MediaPathGenerator.audio_sentence card_uuid 3 (some vid) }

/-! ## Cache Ledger (`CacheManager`, `src/deck/cache.py`)

State: the in-memory `cache` dict (filename → ISO timestamp, modeled as an
insertion-ordered association list), the `_pending_writes` buffer, and the
persisted ledger file contents (`stored`, written by `_save_internal`). The
media directory is an oracle `disk : String → Option Nat` giving each
file's size when it exists (`os.path.getsize`, with `OSError` folded into
`none`). Timestamps (`datetime.now().isoformat()`) are an input `ts`. -/

/-- The `_batch_size` of `CacheManager.__init__`. -/
def BATCH_SIZE : Nat := 10

/-- State of a `CacheManager` instance plus its persisted ledger file. -/
structure CacheState where
  cache : List (String × String)
  pending_writes : List String
  stored : List (String × String)
deriving Repr, DecidableEq

/-- Python dict lookup `d.get(k)` on an insertion-ordered association
list. -/
def dictLookup (k : String) : List (String × String) → Option String
  | [] => none
  | (a, b) :: tl => if k = a then some b else dictLookup k tl

/-- Python dict assignment `d[k] = v` on an insertion-ordered association
list: update in place when the key exists, append otherwise. -/
def dictInsert (d : List (String × String)) (k v : String) : List (String × String) :=
  if (dictLookup k d).isSome then d.map (fun p => if p.1 = k then (k, v) else p)
  else d ++ [(k, v)]

/-- Python `del d[k]`. -/
def dictErase (d : List (String × String)) (k : String) : List (String × String) :=
  d.filter (fun p => p.1 ≠ k)

/-- `CacheManager.is_cached` (`src/deck/cache.py`): returns the lookup
result together with the updated state (the lookup self-heals, deleting a
stale entry and queueing it for persistence, saving when the pending batch
reaches `_batch_size`). -/
def is_cached (disk : String → Option Nat) (st : CacheState) (filename : String)
    (min_size : Nat := 500) : Bool × CacheState :=
  if (dictLookup filename st.cache).isNone then (false, st)
  else
    let ok : Bool :=
      match disk filename with
      | some size => min_size < size
      | none => false
    if ok then (true, st)
    else
      let cache' := dictErase st.cache filename
      let pending' := st.pending_writes ++ [filename]
      if BATCH_SIZE ≤ pending'.length then
        (false, { cache := cache', pending_writes := [], stored := cache' })
      else
        (false, { cache := cache', pending_writes := pending', stored := st.stored })

/-- One entry insertion inside `CacheManager.mark_cached`: set
`cache[f] = ts` and queue `f` for persistence. -/
def markOne (ts : String) (st : CacheState) (filename : String) : CacheState :=
  { st with cache := dictInsert st.cache filename ts
            pending_writes := st.pending_writes ++ [filename] }

/-- The batched-write step at the end of `CacheManager.mark_cached`:
persist and clear the pending buffer once it reaches `_batch_size`. -/
def saveIfBatch (st : CacheState) : CacheState :=
  if BATCH_SIZE ≤ st.pending_writes.length then
    { st with pending_writes := [], stored := st.cache }
  else st

/-- `CacheManager.mark_cached` on a single filename. -/
def mark_cached (ts : String) (st : CacheState) (filename : String) : CacheState :=
  saveIfBatch (markOne ts st filename)

/-- `CacheManager.mark_cached` on a list of filenames. -/
def mark_cached_list (ts : String) (st : CacheState) (filenames : List String) : CacheState :=
  saveIfBatch (filenames.foldl (markOne ts) st)

/-- `CacheManager.flush`: persist any pending writes. -/
def flush (st : CacheState) : CacheState :=
  if st.pending_writes ≠ [] then { st with pending_writes := [], stored := st.cache }
  else st

/-! ## Text parsing (`TextParser`, `src/utils/parsing.py`)

The regex-based helpers are embedded as character-list scanners that
reproduce the leftmost, non-overlapping matching of Python's `re.sub` and
`re.split` for the concrete patterns of the source. `\s` and `\d` are
covered on their ASCII fragments; `unicodedata.normalize('NFC', ·)` and
`html.unescape` are Python-stdlib externals, embedded respectively as the
identity (exact on ASCII/NFC-normal strings) and as the resolver of the
standard named and decimal-numeric character references. -/

/-- `TextParser.normalize_unicode`: NFC normalization, with the falsy-input
shortcut of the source. NFC is the identity on the ASCII strings considered
here, which is how the external `unicodedata.normalize` is embedded. -/
def normalize_unicode (text : String) : String :=
  if text = "" then "" else text

/-- Resolution of a named HTML character reference (`html.unescape`
restricted to the standard entities). -/
def namedEntity (name : List Char) : Option Char :=
  if name = "amp".toList then some '&'
  else if name = "lt".toList then some '<'
  else if name = "gt".toList then some '>'
  else if name = "quot".toList then some '"'
  else if name = "apos".toList then some (Char.ofNat 39)
  else if name = "nbsp".toList then some (Char.ofNat 160)
  else none

/-- Decimal digits to a number. -/
def digitsToNat (ds : List Char) : Nat :=
  ds.foldl (fun a c => a * 10 + (c.toNat - 48)) 0

/-- Parse one character reference after a `&`, returning the character and
the remaining input. -/
def parseEntity (l : List Char) : Option (Char × List Char) :=
  match l with
  | '#' :: rest =>
      let ds := rest.takeWhile Char.isDigit
      (match rest.drop ds.length with
       | ';' :: rest' => if ds = [] then none else some (Char.ofNat (digitsToNat ds), rest')
       | _ => none)
  | _ =>
      let name := l.takeWhile Char.isAlpha
      match l.drop name.length with
      | ';' :: rest' =>
          (match namedEntity name with
           | some c => some (c, rest')
           | none => none)
      | _ => none

/-- `html.unescape` (Python stdlib), on the reference forms above. -/
def htmlUnescape (fuel : Nat) (l : List Char) : List Char :=
  match fuel, l with
  | 0, l => l
  | _, [] => []
  | f + 1, c :: rest =>
      if c = '&' then
        match parseEntity rest with
        | some (ch, rest') => ch :: htmlUnescape f rest'
        | none => c :: htmlUnescape f rest
      else c :: htmlUnescape f rest

/-- After a `<`: skip `[^>]+>` and return the remaining input, or `none`
when the tag pattern does not match here. -/
def afterGt : List Char → Option (List Char)
  | [] => none
  | c :: rest => if c = '>' then some rest else afterGt rest

/-- Attempt the `HTML_TAG_PATTERN` body (`[^>]+>`) after a `<`. -/
def tagRest (l : List Char) : Option (List Char) :=
  match l with
  | [] => none
  | c :: rest => if c = '>' then none else afterGt rest

/-- `HTML_TAG_PATTERN.sub('', ·)`: remove every match of `<[^>]+>`. -/
def removeTags (fuel : Nat) (l : List Char) : List Char :=
  match fuel, l with
  | 0, l => l
  | _, [] => []
  | f + 1, c :: rest =>
      if c = '<' then
        match tagRest rest with
        | some rest' => removeTags f rest'
        | none => c :: removeTags f rest
      else c :: removeTags f rest

/-- Attempt `\d+[\.\)]\s*` at the head of the input, returning the rest
after the match. -/
def numTail (l : List Char) : Option (List Char) :=
  let ds := l.takeWhile Char.isDigit
  if ds = [] then none
  else
    match l.drop ds.length with
    | c :: rest =>
        if c = '.' ∨ c = ')' then some (rest.dropWhile isPySpace) else none
    | [] => none

/-- `NUMBERED_LIST_PATTERN.sub(' ', ·)`: replace every match of
`(^|\s)\d+[\.\)]\s*` with a single space, scanning left to right without
overlap; `atStart` tracks whether the `^` alternative is available. -/
def subNumList (fuel : Nat) (atStart : Bool) (l : List Char) : List Char :=
  match fuel, l with
  | 0, l => l
  | _, [] => []
  | f + 1, c :: rest =>
      match (if atStart then numTail (c :: rest) else none) with
      | some rest' => ' ' :: subNumList f false rest'
      | none =>
          if isPySpace c then
            match numTail rest with
            | some rest' => ' ' :: subNumList f false rest'
            | none => c :: subNumList f false rest
          else c :: subNumList f false rest

/-- `WHITESPACE_PATTERN.sub(' ', ·)`: collapse every `\s+` run into one
space. -/
def collapseWs (fuel : Nat) (l : List Char) : List Char :=
  match fuel, l with
  | 0, l => l
  | _, [] => []
  | f + 1, c :: rest =>
      if isPySpace c then ' ' :: collapseWs f (rest.dropWhile isPySpace)
      else c :: collapseWs f rest

/-- Fuel bound for the numbered-list scanner (one step per character plus
the zero-width `^` attempt). -/
def l3fuel (l : List Char) : Nat := l.length + 1

/-- `TextParser.clean_for_tts` (`src/utils/parsing.py`): unescape HTML
entities, drop HTML tags, drop numbered-list markers, collapse whitespace
and strip, then NFC-normalize. -/
def clean_for_tts (text : String) : String :=
  if text = "" then ""
  else
    let l1 := htmlUnescape text.toList.length text.toList
    let l2 := removeTags l1.length l1
    let l3 := subNumList (l3fuel l2) true l2
    let l4 := collapseWs l3.length l3
    normalize_unicode (String.mk (stripChars l4))

/-- Attempt `\s*/?>` after a literal `<br`, for the sentence splitter. -/
def brTail (l : List Char) : Option (List Char) :=
  match l.dropWhile isPySpace with
  | '/' :: '>' :: r => some r
  | '>' :: r => some r
  | _ => none

/-- Attempt the `SENTENCE_PATTERN` (`<br\s*/?>|\n`) at the head of the
input, returning the rest after the separator. -/
def splitBoundary (l : List Char) : Option (List Char) :=
  match l with
  | '\n' :: r => some r
  | '<' :: 'b' :: 'r' :: r => brTail r
  | _ => none

/-- `SENTENCE_PATTERN.split`: cut the input at every separator match. -/
def splitPat (fuel : Nat) (cur : List Char) (l : List Char) : List (List Char) :=
  match fuel, l with
  | 0, l => [cur.reverse ++ l]
  | _, [] => [cur.reverse]
  | f + 1, c :: rest =>
      match splitBoundary (c :: rest) with
      | some rest' => cur.reverse :: splitPat f [] rest'
      | none => splitPat f (c :: cur) rest

/-- `TextParser.split_sentences` with the builder's arguments
(`max_count=3, pad=True`): split on `<br>`-style tags and newlines, strip
each piece, drop empties, keep at most three, pad with `""` to three. -/
def split_sentences (text : String) : List String :=
  if text = "" then ["", "", ""]
  else
    let t := normalize_unicode text
    let parts := splitPat t.toList.length [] t.toList
    let sentences := ((parts.map stripChars).filter (fun p => p ≠ [])).map String.mk
    let chosen := sentences.take 3
    chosen ++ List.replicate (3 - chosen.length) ""

/-- Lowercase an ASCII letter, for the case-insensitive article match. -/
def lowerChar (c : Char) : Char :=
  if 'A' ≤ c ∧ c ≤ 'Z' then Char.ofNat (c.toNat + 32) else c

/-- `re.sub(Config.STRIP_REGEX, '', ·, flags=re.IGNORECASE)` with the
configured German pattern `^(der|die|das)\s+` (`src/config/languages.py`). -/
def stripArticle (s : String) : String :=
  match s.toList with
  | c1 :: c2 :: c3 :: rest =>
      let w := [lowerChar c1, lowerChar c2, lowerChar c3]
      if (w == "der".toList || w == "die".toList || w == "das".toList)
          && (match rest with | r :: _ => isPySpace r | [] => false) then
        String.mk (rest.dropWhile isPySpace)
      else s
  | _ => s

/-! ## Media fetchers (`src/fetchers/audio.py`, `src/fetchers/images.py`)

Each fetcher is embedded as a function of an outcome oracle for its remote
service, returning its boolean result together with an effect record: how
many service calls it made, which files it renamed into place, and which
`(status_code, is_success)` invocations it sent to the shared concurrency
callback (`AnkiDeckBuilder._adjust_concurrency`). -/

/-- One invocation of the shared concurrency callback. -/
structure Signal where
  status_code : Option Nat
  is_success : Option Bool
deriving Repr, DecidableEq

/-- Outcome of one `edge_tts` synthesis call: the size of the temp file it
wrote, or the message of the exception it raised. -/
inductive TTSOutcome where
  | ok (size : Nat)
  | err (msg : String)
deriving Repr, DecidableEq

/-- Effects of one `AudioFetcher.fetch` call. -/
structure AudioEffects where
  synth_calls : Nat
  file_writes : List String
  signals : List Signal
deriving Repr, DecidableEq

/-- No effects. -/
def noAudioEffects : AudioEffects := ⟨0, [], []⟩

/-- Bool-valued list-head matching, for substring tests. -/
def leadsWith : List Char → List Char → Bool
  | [], _ => true
  | _ :: _, [] => false
  | a :: as, b :: bs => a = b && leadsWith as bs

/-- Python's `pat in s` substring test on character lists. -/
def containsSub (pat : List Char) : List Char → Bool
  | [] => leadsWith pat []
  | c :: rest => leadsWith pat (c :: rest) || containsSub pat rest

/-- `AudioFetcher.fetch` (`src/fetchers/audio.py`): validation gates, one
synthesis call, the 100-byte minimum-size check before the atomic rename,
and the callback reports of the success and exception paths. The random
voice selection and jitter do not affect the result and are left to the
`tts` oracle. -/
def audio_fetch (tts : String → TTSOutcome) (source : String)
    (output_path : String) (volume : String) : Bool × AudioEffects :=
  if pyStrip source = "" then (false, noAudioEffects)
  else
    let clean_text := clean_for_tts source
    if clean_text = "" then (false, noAudioEffects)
    else
      match tts clean_text with
      | .ok size =>
          if 100 < size then
            (true, { synth_calls := 1, file_writes := [output_path],
                     signals := [⟨some 200, some true⟩] })
          else
            (false, { synth_calls := 1, file_writes := [], signals := [] })
      | .err msg =>
          if containsSub "429".toList msg.toList
              || containsSub "Too Many Requests".toList msg.toList then
            (false, { synth_calls := 1, file_writes := [],
                      signals := [⟨some 429, some false⟩] })
          else
            (false, { synth_calls := 1, file_writes := [],
                      signals := [⟨none, some false⟩] })

/-- Outcome of one attempt of `ImageFetcher._download_from_api`: an HTTP
200 response (with the magic-byte validation verdict, body length, and
whether the atomic write succeeds), a 401, a 429, another status, a
timeout, or another exception. -/
inductive ApiAttempt where
  | ok (format_ok : Bool) (body_len : Nat) (write_ok : Bool)
  | auth401
  | throttled429
  | httpError (code : Nat)
  | timedOut
  | failed (msg : String)
deriving Repr, DecidableEq

/-- Effects of one `ImageFetcher.fetch` call. -/
structure ImageEffects where
  requests : Nat
  file_writes : List String
  signals : List Signal
deriving Repr, DecidableEq

/-- No effects. -/
def noImageEffects : ImageEffects := ⟨0, [], []⟩

/-- The retry loop of `ImageFetcher._download_from_api`, over the remaining
attempt budget and the current attempt number. A 200 response with a valid
body is written and returned; an invalid body or a failed write retries; a
401 aborts immediately; a 429 reports to the callback and retries. -/
def downloadGo (attempts : Nat → ApiAttempt) (output_path : String) :
    Nat → Nat → Bool × ImageEffects
  | 0, _ => (false, noImageEffects)
  | remaining + 1, attempt =>
      let bump := fun (p : Bool × ImageEffects) (sigs : List Signal) =>
        (p.1, { requests := p.2.requests + 1, file_writes := p.2.file_writes,
                signals := sigs ++ p.2.signals })
      match attempts attempt with
      | .ok format_ok body_len write_ok =>
          if format_ok && 2000 < body_len then
            if write_ok then (true, ⟨1, [output_path], []⟩)
            else bump (downloadGo attempts output_path remaining (attempt + 1)) []
          else bump (downloadGo attempts output_path remaining (attempt + 1)) []
      | .auth401 => (false, ⟨1, [], []⟩)
      | .throttled429 =>
          bump (downloadGo attempts output_path remaining (attempt + 1))
            [⟨some 429, some false⟩]
      | .httpError _ => bump (downloadGo attempts output_path remaining (attempt + 1)) []
      | .timedOut => bump (downloadGo attempts output_path remaining (attempt + 1)) []
      | .failed _ => bump (downloadGo attempts output_path remaining (attempt + 1)) []

/-- `ImageFetcher._download_from_api`: nothing happens without an API key;
otherwise the retry loop runs with the configured budget. -/
def download_from_api (has_api_key : Bool) (attempts : Nat → ApiAttempt)
    (retries : Nat) (output_path : String) : Bool × ImageEffects :=
  if !has_api_key then (false, noImageEffects)
  else downloadGo attempts output_path retries 0

/-- `ImageFetcher.fetch` (`src/fetchers/images.py`): strip the prompt,
reject empty or shorter-than-5 prompts before any work, then download and
report the final outcome to the callback. -/
def image_fetch (has_api_key : Bool) (attempts : Nat → ApiAttempt) (retries : Nat)
    (source : String) (output_path : String) : Bool × ImageEffects :=
  let prompt := pyStrip source
  if prompt = "" ∨ prompt.length < 5 then (false, noImageEffects)
  else
    let r := download_from_api has_api_key attempts retries output_path
    if r.1 then
      (true, { requests := r.2.requests, file_writes := r.2.file_writes,
               signals := r.2.signals ++ [⟨some 200, some true⟩] })
    else
      (false, { requests := r.2.requests, file_writes := r.2.file_writes,
                signals := r.2.signals ++ [⟨none, some false⟩] })

/-! ## Row Processor (`AnkiDeckBuilder.process_row`, `src/deck/builder.py`)

The per-row orchestrator, threaded sequentially: the statistics counters
only ever grow by increments, so a sequential fold models any interleaving
of the concurrent per-row tasks (the spec itself notes statistics are
order-independent sums). The backoff sleep and the semaphore affect
scheduling only. Fetch-task exceptions are converted to `False` results by
`asyncio.gather(..., return_exceptions=True)` and are part of the fetch
oracles; the remaining unexpected-exception site modeled is note assembly
(`genanki.Note`), injected per row index by the environment. The progress
callback is an external best-effort sink and is modeled as non-raising. -/

/-- The counters of `ThreadSafeStats` touched by `process_row`, plus the
`failed_words` report list. -/
structure Stats where
  words_processed : Nat
  images_success : Nat
  images_failed : Nat
  audio_word_success : Nat
  audio_word_failed : Nat
  audio_sent_success : Nat
  audio_sent_failed : Nat
  rows_failed : Nat
  failed_words : List String
deriving Repr, DecidableEq

/-- All-zero statistics. -/
def Stats.init : Stats := ⟨0, 0, 0, 0, 0, 0, 0, 0, []⟩

/-- One vocabulary row, with the columns read by `process_row`. -/
structure RowData where
  TargetWord : String
  Meaning : String
  IPA : String
  Part_of_Speech : String
  Gender : String
  Morphology : String
  Nuance : String
  ContextSentences : String
  ContextTranslation : String
  Etymology : String
  Mnemonic : String
  Analogues : String
  ImagePrompt : String
  Tags : String
deriving Repr, DecidableEq

/-- A row with every column empty. -/
def RowData.empty : RowData :=
  ⟨"", "", "", "", "", "", "", "", "", "", "", "", "", ""⟩

/-- Environment of a run: the media-directory sizes consulted by the cache,
the two remote-service oracles, the configuration the fetchers read, the
timestamp used by `mark_cached`, and the per-row injection point for an
unexpected exception at note assembly. -/
structure RowEnv where
  disk : String → Option Nat
  tts : String → TTSOutcome
  has_api_key : Bool
  api : Nat → Nat → ApiAttempt
  retries : Nat
  ts : String
  note_raises : Nat → Bool
  language : String

/-- Mutable state of the builder touched by `process_row`. -/
structure BuilderState where
  stats : Stats
  cache : CacheState
  deck : List String
  media_files : List String
deriving Repr, DecidableEq

/-- The builder's state at the start of a run over an empty ledger. -/
def BuilderState.init : BuilderState :=
  ⟨Stats.init, ⟨[], [], []⟩, [], []⟩

/-- The image branch of the statistics update in `process_row`. -/
def imgStat (has_img : Bool) (s : Stats) : Stats :=
  if has_img then { s with images_success := s.images_success + 1 }
  else { s with images_failed := s.images_failed + 1 }

/-- The word-audio branch of the statistics update in `process_row`. -/
def wordStat (has_w : Bool) (s : Stats) : Stats :=
  if has_w then { s with audio_word_success := s.audio_word_success + 1 }
  else { s with audio_word_failed := s.audio_word_failed + 1 }

/-- One iteration of the sentence-audio statistics loop in `process_row`. -/
def sentStat (has_s : Bool) (sentence : String) (s : Stats) : Stats :=
  if has_s then { s with audio_sent_success := s.audio_sent_success + 1 }
  else if sentence ≠ "" then { s with audio_sent_failed := s.audio_sent_failed + 1 }
  else s

/-- The cache-check-or-fetch step for one sentence in `process_row`: an
empty sentence is skipped, a cached one is already satisfied, otherwise
the audio fetch decides. Returns the `has_s` flag and the cache state
after the lookup. -/
def sentStep (env : RowEnv) (c : CacheState) (fname sentence : String) :
    Bool × CacheState :=
  if sentence = "" then (false, c)
  else
    let r := is_cached env.disk c fname
    if r.1 then (true, r.2)
    else ((audio_fetch env.tts sentence fname "+0%").1, r.2)

/-- The tail of `AnkiDeckBuilder.process_row` after the fetches resolve:
the statistics updates and cache marks for the five media slots (in source
order, statistics and marks interleaved), the media-file list appends, and
the note step — either the note is added to the deck, or the injected
exception is converted into a `rows_failed` statistic carrying the first
50 characters of the failing word, and the row is dropped. -/
def rowFinish (st : BuilderState) (noteRaises : Bool) (origWord card_uuid : String)
    (files : MediaFiles) (ts : String) (stats1 : Stats) (cAfter : CacheState)
    (has_img has_w hs1 hs2 hs3 : Bool) (s1 s2 s3 : String) : BuilderState :=
  let stats2 := imgStat has_img stats1
  let c6 := if has_img then mark_cached ts cAfter files.image else cAfter
  let stats3 := wordStat has_w stats2
  let c7 := if has_w then mark_cached ts c6 files.word else c6
  let stats4 := sentStat hs1 s1 stats3
  let c8 := if hs1 then mark_cached ts c7 files.sent_1 else c7
  let stats5 := sentStat hs2 s2 stats4
  let c9 := if hs2 then mark_cached ts c8 files.sent_2 else c8
  let stats6 := sentStat hs3 s3 stats5
  let c10 := if hs3 then mark_cached ts c9 files.sent_3 else c9
  let media := st.media_files
    ++ (if has_img then [files.image] else [])
    ++ (if has_w then [files.word] else [])
    ++ (if hs1 then [files.sent_1] else [])
    ++ (if hs2 then [files.sent_2] else [])
    ++ (if hs3 then [files.sent_3] else [])
  if noteRaises then
    { stats :=
        { stats6 with
          rows_failed := stats6.rows_failed + 1
          failed_words := stats6.failed_words ++ [String.mk (origWord.toList.take 50)] }
      cache := c10
      deck := st.deck
      media_files := media }
  else
    { stats := stats6
      cache := c10
      deck := st.deck ++ [card_uuid]
      media_files := media }

/-- `AnkiDeckBuilder.process_row` (`src/deck/builder.py`): skip empty
words; derive the identifier and the five filenames; consult the cache and
fetch what is missing; update the statistics; mark fresh media cached; add
the note — or, when note assembly raises, convert the exception into a
`rows_failed` statistic with a 50-character sample of the failing word and
drop the row. -/
def process_row (env : RowEnv) (st : BuilderState) (index : Nat) (row : RowData) :
    BuilderState :=
  if pyStrip row.TargetWord = "" then st
  else
    let raw_word := normalize_unicode (pyStrip row.TargetWord)
    let clean_word := normalize_unicode (pyStrip (stripArticle raw_word))
    let meaning_full := normalize_unicode (pyStrip row.Meaning)
    let pos := pyStrip row.Part_of_Speech
    let card_uuid :=
      MediaPathGenerator.generate_card_uuid clean_word pos meaning_full index env.language
    let stats1 := { st.stats with words_processed := st.stats.words_processed + 1 }
    let sentences := split_sentences row.ContextSentences
    let s1 := sentences.getD 0 ""
    let s2 := sentences.getD 1 ""
    let s3 := sentences.getD 2 ""
    let files := get_all_media_files card_uuid none
    let rimg := is_cached env.disk st.cache files.image
    let has_img :=
      if rimg.1 then true
      else (image_fetch env.has_api_key (env.api index) env.retries row.ImagePrompt files.image).1
    let rw := is_cached env.disk rimg.2 files.word
    let has_w :=
      if rw.1 then true
      else (audio_fetch env.tts raw_word files.word "+40%").1
    let p1 := sentStep env rw.2 files.sent_1 s1
    let p2 := sentStep env p1.2 files.sent_2 s2
    let p3 := sentStep env p2.2 files.sent_3 s3
    rowFinish st (env.note_raises index) row.TargetWord card_uuid files env.ts
      stats1 p3.2 has_img has_w p1.1 p2.1 p3.1 s1 s2 s3

/-- The per-batch dispatch of `AnkiDeckBuilder.build`, flattened: process
every `(index, row)` pair in order (statistics are order-independent
increment sums, so this fold models any interleaving). -/
def run_rows (env : RowEnv) (st : BuilderState) (rows : List (Nat × RowData)) :
    BuilderState :=
  rows.foldl (fun s p => process_row env s p.1 p.2) st

/-- Rows whose target word is non-empty after stripping — the rows
`process_row` does not skip. -/
def countWordRows (rows : List (Nat × RowData)) : Nat :=
  (rows.filter (fun p => pyStrip p.2.TargetWord ≠ "")).length

/-- Rows with a non-empty image prompt — the count named by the spec's
statistics-conservation claim. -/
def countPromptRows (rows : List (Nat × RowData)) : Nat :=
  (rows.filter (fun p => p.2.ImagePrompt ≠ "")).length

/-- Number of non-empty sentences `process_row` sees for one row. -/
def rowSentenceCount (row : RowData) : Nat :=
  let ss := split_sentences row.ContextSentences
  (if ss.getD 0 "" ≠ "" then 1 else 0) + (if ss.getD 1 "" ≠ "" then 1 else 0)
    + (if ss.getD 2 "" ≠ "" then 1 else 0)

/-- Total non-empty sentences over the non-skipped rows of a run. -/
def totalSentences (rows : List (Nat × RowData)) : Nat :=
  ((rows.filter (fun p => pyStrip p.2.TargetWord ≠ "")).map
    (fun p => rowSentenceCount p.2)).sum

/-- A concrete environment for counterexample runs: empty media directory,
TTS synthesis always raising, image API configured with a key but failing
every attempt, no injected note exceptions, German build. -/
def env0 : RowEnv :=
  { disk := fun _ => none
    tts := fun _ => TTSOutcome.err "boom"
    has_api_key := true
    api := fun _ _ => ApiAttempt.failed "connection reset"
    retries := 5
    ts := "2026-01-01T00:00:00"
    note_raises := fun _ => false
    language := "DE" }

/-- A row with the word `cat` and every other column empty — in particular
an empty image prompt. -/
def row0 : RowData := { RowData.empty with TargetWord := "cat" }

/-- The environment `env0` with an unexpected exception injected at note
assembly for every row. -/
def env1 : RowEnv := { env0 with note_raises := fun _ => true }

/-! ## Supporting lemmas -/

/-- Validation of the embedded SHA-256 against the FIPS 180-4 test vector. -/
theorem sha256hex_abc :
    sha256hex "abc" = "ba7816bf8f01cfea414140de5dae2223b00361a396177a9cb410ff61f20015ad" := by
  decide

/-- Updating an existing key in place makes the lookup return the new
value. -/
theorem dictLookup_map_update (k v : String) :
    ∀ tl : List (String × String), (dictLookup k tl).isSome = true →
      dictLookup k (tl.map (fun p => if p.1 = k then (k, v) else p)) = some v := by
  intro tl
  induction tl with
  | nil => intro h; simp [dictLookup] at h
  | cons hd tl ih =>
      obtain ⟨a, b⟩ := hd
      intro h
      by_cases hk : a = k
      · subst hk
        rw [List.map_cons, if_pos (show ((a, b) : String × String).1 = a from rfl)]
        simp [dictLookup]
      · have hk2 : ¬ k = a := fun hh => hk hh.symm
        have h2 : (dictLookup k tl).isSome = true := by
          simpa [dictLookup, hk2] using h
        rw [List.map_cons, if_neg (show ¬ ((a, b) : String × String).1 = k from hk)]
        simp only [dictLookup, if_neg hk2]
        exact ih h2

/-- Appending a fresh key makes the lookup return its value. -/
theorem dictLookup_append_new (k v : String) :
    ∀ tl : List (String × String), dictLookup k tl = none →
      dictLookup k (tl ++ [(k, v)]) = some v := by
  intro tl
  induction tl with
  | nil => intro h2; simp [dictLookup]
  | cons hd tl ih =>
      obtain ⟨a, b⟩ := hd
      intro h
      by_cases hk : k = a
      · simp [dictLookup, hk] at h
      · have h2 : dictLookup k tl = none := by simpa [dictLookup, hk] using h
        simpa [dictLookup, hk] using ih h2

/-- Inserting a key makes it found, with the inserted value. -/
theorem dictLookup_dictInsert (d : List (String × String)) (k v : String) :
    dictLookup k (dictInsert d k v) = some v := by
  unfold dictInsert
  split
  · rename_i hsome
    exact dictLookup_map_update k v d hsome
  · rename_i hno
    refine dictLookup_append_new k v d ?_
    exact Option.not_isSome_iff_eq_none.mp (by simpa using hno)

/-- Erasing a key makes it unfindable. -/
theorem dictLookup_dictErase (k : String) :
    ∀ d : List (String × String), dictLookup k (dictErase d k) = none := by
  intro d
  induction d with
  | nil => simp [dictErase, dictLookup]
  | cons hd tl ih =>
      obtain ⟨a, b⟩ := hd
      by_cases hk : a = k
      · simpa [dictErase, List.filter_cons, hk] using ih
      · have hk2 : ¬ k = a := fun hh => hk hh.symm
        simpa [dictErase, List.filter_cons, hk, dictLookup, hk2] using ih

/-- `flush` only moves the pending buffer; the in-memory dict is unchanged. -/
theorem flush_cache_eq (st : CacheState) : (flush st).cache = st.cache := by
  unfold flush
  split <;> rfl

/-- `mark_cached` inserts the entry into the in-memory dict. -/
theorem mark_cached_cache_eq (ts : String) (st : CacheState) (f : String) :
    (mark_cached ts st f).cache = dictInsert st.cache f ts := by
  unfold mark_cached saveIfBatch markOne
  split <;> rfl

/-- Field accounting for the image branch of the statistics update. -/
theorem imgStat_fields (b : Bool) (s : Stats) :
    (imgStat b s).images_success + (imgStat b s).images_failed
        = s.images_success + s.images_failed + 1 ∧
    (imgStat b s).audio_word_success = s.audio_word_success ∧
    (imgStat b s).audio_word_failed = s.audio_word_failed ∧
    (imgStat b s).audio_sent_success = s.audio_sent_success ∧
    (imgStat b s).audio_sent_failed = s.audio_sent_failed ∧
    (imgStat b s).words_processed = s.words_processed ∧
    (imgStat b s).rows_failed = s.rows_failed ∧
    (imgStat b s).failed_words = s.failed_words := by
  cases b <;> simp [imgStat] <;> omega

/-- Field accounting for the word-audio branch of the statistics update. -/
theorem wordStat_fields (b : Bool) (s : Stats) :
    (wordStat b s).audio_word_success + (wordStat b s).audio_word_failed
        = s.audio_word_success + s.audio_word_failed + 1 ∧
    (wordStat b s).images_success = s.images_success ∧
    (wordStat b s).images_failed = s.images_failed ∧
    (wordStat b s).audio_sent_success = s.audio_sent_success ∧
    (wordStat b s).audio_sent_failed = s.audio_sent_failed ∧
    (wordStat b s).words_processed = s.words_processed ∧
    (wordStat b s).rows_failed = s.rows_failed ∧
    (wordStat b s).failed_words = s.failed_words := by
  cases b <;> simp [wordStat] <;> omega

/-- Field accounting for one sentence-audio statistics step: together the
two sentence counters grow by one exactly when the sentence is non-empty,
provided success is only possible for a non-empty sentence. -/
theorem sentStat_fields (b : Bool) (snt : String) (s : Stats)
    (hb : b = true → snt ≠ "") :
    (sentStat b snt s).audio_sent_success + (sentStat b snt s).audio_sent_failed
        = s.audio_sent_success + s.audio_sent_failed + (if snt ≠ "" then 1 else 0) ∧
    (sentStat b snt s).images_success = s.images_success ∧
    (sentStat b snt s).images_failed = s.images_failed ∧
    (sentStat b snt s).audio_word_success = s.audio_word_success ∧
    (sentStat b snt s).audio_word_failed = s.audio_word_failed ∧
    (sentStat b snt s).words_processed = s.words_processed ∧
    (sentStat b snt s).rows_failed = s.rows_failed ∧
    (sentStat b snt s).failed_words = s.failed_words := by
  cases b
  · by_cases hs : snt = "" <;> simp [sentStat, hs] <;> omega
  · have hs := hb rfl
    simp [sentStat, hs]
    omega

/-- The sentence cache-check-or-fetch step only reports success on a
non-empty sentence. -/
theorem sentStep_true_nonempty (env : RowEnv) (c : CacheState) (fname snt : String)
    (h : (sentStep env c fname snt).1 = true) : snt ≠ "" := by
  intro hs
  rw [hs] at h
  simp [sentStep] at h

/-- Accounting for the whole statistics pipeline of one processed row. -/
theorem rowStatsPipeline (hi hw h1 h2 h3 : Bool) (s1 s2 s3 : String) (base : Stats)
    (e1 : h1 = true → s1 ≠ "") (e2 : h2 = true → s2 ≠ "") (e3 : h3 = true → s3 ≠ "") :
    (sentStat h3 s3 (sentStat h2 s2 (sentStat h1 s1 (wordStat hw (imgStat hi base))))).images_success
        + (sentStat h3 s3 (sentStat h2 s2 (sentStat h1 s1 (wordStat hw (imgStat hi base))))).images_failed
      = base.images_success + base.images_failed + 1 ∧
    (sentStat h3 s3 (sentStat h2 s2 (sentStat h1 s1 (wordStat hw (imgStat hi base))))).audio_word_success
        + (sentStat h3 s3 (sentStat h2 s2 (sentStat h1 s1 (wordStat hw (imgStat hi base))))).audio_word_failed
      = base.audio_word_success + base.audio_word_failed + 1 ∧
    (sentStat h3 s3 (sentStat h2 s2 (sentStat h1 s1 (wordStat hw (imgStat hi base))))).audio_sent_success
        + (sentStat h3 s3 (sentStat h2 s2 (sentStat h1 s1 (wordStat hw (imgStat hi base))))).audio_sent_failed
      = base.audio_sent_success + base.audio_sent_failed
        + ((if s1 ≠ "" then 1 else 0) + (if s2 ≠ "" then 1 else 0) + (if s3 ≠ "" then 1 else 0)) ∧
    (sentStat h3 s3 (sentStat h2 s2 (sentStat h1 s1 (wordStat hw (imgStat hi base))))).words_processed
      = base.words_processed ∧
    (sentStat h3 s3 (sentStat h2 s2 (sentStat h1 s1 (wordStat hw (imgStat hi base))))).rows_failed
      = base.rows_failed ∧
    (sentStat h3 s3 (sentStat h2 s2 (sentStat h1 s1 (wordStat hw (imgStat hi base))))).failed_words
      = base.failed_words := by
  obtain ⟨a1, a2, a3, a4, a5, a6, a7, a8⟩ := imgStat_fields hi base
  obtain ⟨b1, b2, b3, b4, b5, b6, b7, b8⟩ := wordStat_fields hw (imgStat hi base)
  obtain ⟨c1, c2, c3, c4, c5, c6, c7, c8⟩ :=
    sentStat_fields h1 s1 (wordStat hw (imgStat hi base)) e1
  obtain ⟨d1, d2, d3, d4, d5, d6, d7, d8⟩ :=
    sentStat_fields h2 s2 (sentStat h1 s1 (wordStat hw (imgStat hi base))) e2
  obtain ⟨f1, f2, f3, f4, f5, f6, f7, f8⟩ :=
    sentStat_fields h3 s3 (sentStat h2 s2 (sentStat h1 s1 (wordStat hw (imgStat hi base)))) e3
  refine ⟨by omega, by omega, by omega, by omega, by omega, ?_⟩
  rw [f8, d8, c8, b8, a8]

/-- Agreement of `pymin` with the order-theoretic `min`. -/
theorem pymin_eq_min (a b : Rat) : pymin a b = min a b := (min_def a b).symm

/-- Concrete values of the backoff table. -/
theorem get_backoff_delay_values :
    get_backoff_delay 0 = 0 ∧ get_backoff_delay 1 = 1 ∧
    get_backoff_delay 2 = 2 ∧ get_backoff_delay 3 = 4 ∧
    get_backoff_delay 4 = 8 ∧ get_backoff_delay 5 = 8 := by
  refine ⟨?_, ?_, ?_, ?_, ?_, ?_⟩ <;>
    · simp only [get_backoff_delay, pymin, Nat.min_def]
      norm_num

/-- Backoff saturates at 8 seconds from four consecutive failures on. -/
theorem get_backoff_delay_saturates {f : Nat} (h : 4 ≤ f) :
    get_backoff_delay f = 8 := by
  have hf : f ≠ 0 := by omega
  have hm : min f 4 = 4 := by omega
  simp only [get_backoff_delay, hf, if_false, hm, pymin]
  norm_num

/-- The backoff delay never decreases as the failure count grows. -/
theorem get_backoff_delay_monotone {m n : Nat} (h : m ≤ n) :
    get_backoff_delay m ≤ get_backoff_delay n := by
  rcases Nat.eq_zero_or_pos m with hm | hm
  · subst hm
    have h0 : get_backoff_delay 0 = 0 := by simp [get_backoff_delay]
    rw [h0]
    unfold get_backoff_delay
    split
    · exact le_refl 0
    · rw [pymin_eq_min]
      have h1 : (0 : Rat) ≤ (1 / 2) * 2 ^ (min n 4) := by positivity
      have h2 : (0 : Rat) ≤ 10 := by norm_num
      exact le_min h2 h1
  · have hn : n ≠ 0 := by omega
    have hm' : m ≠ 0 := by omega
    simp only [get_backoff_delay, hm', hn, if_false, pymin_eq_min]
    have hmin : min m 4 ≤ min n 4 := by omega
    have hpow : (2 : Rat) ^ (min m 4) ≤ 2 ^ (min n 4) := by
      apply pow_le_pow_right₀ (by norm_num) hmin
    have : (1 / 2 : Rat) * 2 ^ (min m 4) ≤ (1 / 2) * 2 ^ (min n 4) := by
      nlinarith
    exact min_le_min (le_refl 10) this

/-- Full accounting for `rowFinish`: counter deltas, preserved fields, and
both sides of the note step. -/
theorem rowFinish_stats (st : BuilderState) (nr : Bool) (w u : String)
    (files : MediaFiles) (ts : String) (stats1 : Stats) (cA : CacheState)
    (hi hw b1 b2 b3 : Bool) (s1 s2 s3 : String)
    (e1 : b1 = true → s1 ≠ "") (e2 : b2 = true → s2 ≠ "") (e3 : b3 = true → s3 ≠ "") :
    (rowFinish st nr w u files ts stats1 cA hi hw b1 b2 b3 s1 s2 s3).stats.images_success
        + (rowFinish st nr w u files ts stats1 cA hi hw b1 b2 b3 s1 s2 s3).stats.images_failed
      = stats1.images_success + stats1.images_failed + 1 ∧
    (rowFinish st nr w u files ts stats1 cA hi hw b1 b2 b3 s1 s2 s3).stats.audio_word_success
        + (rowFinish st nr w u files ts stats1 cA hi hw b1 b2 b3 s1 s2 s3).stats.audio_word_failed
      = stats1.audio_word_success + stats1.audio_word_failed + 1 ∧
    (rowFinish st nr w u files ts stats1 cA hi hw b1 b2 b3 s1 s2 s3).stats.audio_sent_success
        + (rowFinish st nr w u files ts stats1 cA hi hw b1 b2 b3 s1 s2 s3).stats.audio_sent_failed
      = stats1.audio_sent_success + stats1.audio_sent_failed
        + ((if s1 ≠ "" then 1 else 0) + (if s2 ≠ "" then 1 else 0) + (if s3 ≠ "" then 1 else 0)) ∧
    (rowFinish st nr w u files ts stats1 cA hi hw b1 b2 b3 s1 s2 s3).stats.words_processed
      = stats1.words_processed ∧
    (nr = true →
      (rowFinish st nr w u files ts stats1 cA hi hw b1 b2 b3 s1 s2 s3).stats.rows_failed
          = stats1.rows_failed + 1 ∧
      (rowFinish st nr w u files ts stats1 cA hi hw b1 b2 b3 s1 s2 s3).stats.failed_words
          = stats1.failed_words ++ [String.mk (w.toList.take 50)] ∧
      (rowFinish st nr w u files ts stats1 cA hi hw b1 b2 b3 s1 s2 s3).deck = st.deck) ∧
    (nr = false →
      (rowFinish st nr w u files ts stats1 cA hi hw b1 b2 b3 s1 s2 s3).stats.rows_failed
          = stats1.rows_failed ∧
      (rowFinish st nr w u files ts stats1 cA hi hw b1 b2 b3 s1 s2 s3).stats.failed_words
          = stats1.failed_words ∧
      (rowFinish st nr w u files ts stats1 cA hi hw b1 b2 b3 s1 s2 s3).deck
          = st.deck ++ [u]) := by
  obtain ⟨q1, q2, q3, q4, q5, q6⟩ := rowStatsPipeline hi hw b1 b2 b3 s1 s2 s3 stats1 e1 e2 e3
  simp only [ne_eq, ite_not] at q3
  cases nr <;> simp [rowFinish, q4, q5, q6] <;> omega

/-- A row whose target word strips to empty is skipped without touching the
builder state. -/
theorem process_row_skip (env : RowEnv) (st : BuilderState) (i : Nat) (row : RowData)
    (h : pyStrip row.TargetWord = "") : process_row env st i row = st := by
  simp [process_row, h]

/-- Counter deltas of one processed (non-skipped) row: each image and
word-audio slot settles exactly one counter, the sentence counters settle
one per non-empty sentence, and the exception path adds the row-failure
statistic without touching the media counters. -/
theorem process_row_stats_delta (env : RowEnv) (st : BuilderState) (i : Nat) (row : RowData)
    (h : pyStrip row.TargetWord ≠ "") :
    (process_row env st i row).stats.images_success + (process_row env st i row).stats.images_failed
      = st.stats.images_success + st.stats.images_failed + 1 ∧
    (process_row env st i row).stats.audio_word_success
        + (process_row env st i row).stats.audio_word_failed
      = st.stats.audio_word_success + st.stats.audio_word_failed + 1 ∧
    (process_row env st i row).stats.audio_sent_success
        + (process_row env st i row).stats.audio_sent_failed
      = st.stats.audio_sent_success + st.stats.audio_sent_failed + rowSentenceCount row ∧
    (process_row env st i row).stats.words_processed = st.stats.words_processed + 1 ∧
    (env.note_raises i = true →
      (process_row env st i row).stats.rows_failed = st.stats.rows_failed + 1 ∧
      (process_row env st i row).stats.failed_words
          = st.stats.failed_words ++ [String.mk (row.TargetWord.toList.take 50)] ∧
      (process_row env st i row).deck = st.deck) ∧
    (env.note_raises i = false →
      (process_row env st i row).stats.rows_failed = st.stats.rows_failed ∧
      (process_row env st i row).stats.failed_words = st.stats.failed_words ∧
      ∃ u, (process_row env st i row).deck = st.deck ++ [u]) := by
  unfold process_row
  rw [if_neg h]
  simp only []
  refine ⟨?_, ?_, ?_, ?_, ?_, ?_⟩
  · exact (rowFinish_stats _ _ _ _ _ _ _ _ _ _ _ _ _ _ _ _
      (sentStep_true_nonempty _ _ _ _) (sentStep_true_nonempty _ _ _ _)
      (sentStep_true_nonempty _ _ _ _)).1
  · exact (rowFinish_stats _ _ _ _ _ _ _ _ _ _ _ _ _ _ _ _
      (sentStep_true_nonempty _ _ _ _) (sentStep_true_nonempty _ _ _ _)
      (sentStep_true_nonempty _ _ _ _)).2.1
  · exact (rowFinish_stats _ _ _ _ _ _ _ _ _ _ _ _ _ _ _ _
      (sentStep_true_nonempty _ _ _ _) (sentStep_true_nonempty _ _ _ _)
      (sentStep_true_nonempty _ _ _ _)).2.2.1
  · exact (rowFinish_stats _ _ _ _ _ _ _ _ _ _ _ _ _ _ _ _
      (sentStep_true_nonempty _ _ _ _) (sentStep_true_nonempty _ _ _ _)
      (sentStep_true_nonempty _ _ _ _)).2.2.2.1
  · intro hnr
    exact (rowFinish_stats _ _ _ _ _ _ _ _ _ _ _ _ _ _ _ _
      (sentStep_true_nonempty _ _ _ _) (sentStep_true_nonempty _ _ _ _)
      (sentStep_true_nonempty _ _ _ _)).2.2.2.2.1 hnr
  · intro hnr
    obtain ⟨r1, r2, r3⟩ := (rowFinish_stats _ _ _ _ _ _ _ _ _ _ _ _ _ _ _ _
      (sentStep_true_nonempty _ _ _ _) (sentStep_true_nonempty _ _ _ _)
      (sentStep_true_nonempty _ _ _ _)).2.2.2.2.2 hnr
    exact ⟨r1, r2, _, r3⟩

/-- Statistics conservation over a whole run, by folding the per-row
deltas. -/
theorem run_rows_conservation (env : RowEnv) :
    ∀ (rows : List (Nat × RowData)) (st : BuilderState),
      ((run_rows env st rows).stats.images_success + (run_rows env st rows).stats.images_failed
        = st.stats.images_success + st.stats.images_failed + countWordRows rows) ∧
      ((run_rows env st rows).stats.audio_word_success
          + (run_rows env st rows).stats.audio_word_failed
        = st.stats.audio_word_success + st.stats.audio_word_failed + countWordRows rows) ∧
      ((run_rows env st rows).stats.audio_sent_success
          + (run_rows env st rows).stats.audio_sent_failed
        = st.stats.audio_sent_success + st.stats.audio_sent_failed + totalSentences rows) := by
  intro rows
  induction rows with
  | nil => intro st; simp [run_rows, countWordRows, totalSentences]
  | cons hd tl ih =>
      intro st
      obtain ⟨i, row⟩ := hd
      have hrun : run_rows env st ((i, row) :: tl)
          = run_rows env (process_row env st i row) tl := rfl
      by_cases hw : pyStrip row.TargetWord = ""
      · have hskip := process_row_skip env st i row hw
        have hc : countWordRows ((i, row) :: tl) = countWordRows tl := by
          simp [countWordRows, List.filter_cons, hw]
        have hts : totalSentences ((i, row) :: tl) = totalSentences tl := by
          simp [totalSentences, List.filter_cons, hw]
        rw [hrun, hskip, hc, hts]
        exact ih st
      · obtain ⟨d1, d2, d3, _, _⟩ := process_row_stats_delta env st i row hw
        obtain ⟨j1, j2, j3⟩ := ih (process_row env st i row)
        have hc : countWordRows ((i, row) :: tl) = countWordRows tl + 1 := by
          simp [countWordRows, List.filter_cons, hw]
        have hts : totalSentences ((i, row) :: tl)
            = rowSentenceCount row + totalSentences tl := by
          simp [totalSentences, List.filter_cons, hw]
        rw [hrun]
        refine ⟨by omega, by omega, by omega⟩

/-! ## Claims -/

/-- C1: for every non-negative consecutive-failure count `f`, the
backoff-delay computation returns `min(10.0, 0.5 * 2^min(f,4))` seconds,
i.e. 0s at zero failures, rising through 0.5s, 1s, 2s, 4s, capping at 10s.
This fails at `f = 0` (and 0.5s and the 10s cap never occur); amended: the
computation returns 0 at zero failures and `min(10.0, 0.5 * 2^min(f,4))`
for `f ≥ 1`, i.e. 1s, 2s, 4s, then a constant 8s from four failures on —
the nominal 10s cap is never attained. -/
theorem c1_backoff_piecewise :
    get_backoff_delay 0 = 0 ∧
    (∀ f : Nat, 1 ≤ f → get_backoff_delay f = spec_backoff_formula f) ∧
    get_backoff_delay 1 = 1 ∧ get_backoff_delay 2 = 2 ∧ get_backoff_delay 3 = 4 ∧
    (∀ f : Nat, 4 ≤ f → get_backoff_delay f = 8) := by
  obtain ⟨v0, v1, v2, v3, _, _⟩ := get_backoff_delay_values
  refine ⟨v0, ?_, v1, v2, v3, fun f hf => get_backoff_delay_saturates hf⟩
  intro f hf
  have hne : f ≠ 0 := by omega
  simp [get_backoff_delay, spec_backoff_formula, hne]

/-- C1 witness: the amended piecewise description applied at six
consecutive failures. -/
theorem c1_backoff_piecewise_witness :
    get_backoff_delay 6 = spec_backoff_formula 6 ∧ get_backoff_delay 6 = 8 :=
  ⟨c1_backoff_piecewise.2.1 6 (by decide),
   c1_backoff_piecewise.2.2.2.2.2 6 (by decide)⟩

/-- C1 counterexample: at zero failures the code returns 0.0 while the
claimed closed form evaluates to 0.5. -/
theorem c1_backoff_counterexample :
    get_backoff_delay 0 ≠ spec_backoff_formula 0 ∧
    get_backoff_delay 0 = 0 ∧ spec_backoff_formula 0 = 1 / 2 := by
  have h1 : get_backoff_delay 0 = 0 := by simp [get_backoff_delay]
  have h2 : spec_backoff_formula 0 = 1 / 2 := by
    simp only [spec_backoff_formula, pymin]
    norm_num
  refine ⟨?_, h1, h2⟩
  rw [h1, h2]
  norm_num

/-- C8: starting from any tracker state, a throttle (429) signal recorded
via the outcome callback never decreases the backoff-delay value, and a
clear-success signal (a truthy status code below 400) resets the
consecutive-failure count to zero, dropping the backoff to 0. -/
theorem c8_throttle_monotone_success_resets :
    (∀ s : AdaptiveStats,
      get_backoff_delay s.consecutive_failures ≤
        get_backoff_delay
          ((adjust_concurrency (some 429) (some false) s).consecutive_failures)) ∧
    (∀ (s : AdaptiveStats) (c : Nat) (b : Option Bool), 0 < c → c < 400 →
      (adjust_concurrency (some c) b s).consecutive_failures = 0 ∧
      get_backoff_delay ((adjust_concurrency (some c) b s).consecutive_failures) = 0) := by
  constructor
  · intro s
    have hs : (adjust_concurrency (some 429) (some false) s).consecutive_failures
        = s.consecutive_failures + 1 := by
      simp [adjust_concurrency]
    rw [hs]
    exact get_backoff_delay_monotone (Nat.le_succ _)
  · intro s c b h1 h2
    have hc : c ≠ 429 := by omega
    have hcs : statusClearSuccess (some c) = true := by
      simp only [statusClearSuccess, Bool.and_eq_true, decide_eq_true_eq, ne_eq]
      omega
    have hfa : (adjust_concurrency (some c) b s).consecutive_failures = 0 := by
      simp [adjust_concurrency, hcs, hc]
    refine ⟨hfa, ?_⟩
    rw [hfa]
    simp [get_backoff_delay]

/-- C8 witness: a success with status 200 after three consecutive failures
resets the streak and the backoff. -/
theorem c8_throttle_monotone_success_resets_witness :
    (adjust_concurrency (some 200) (some true) ⟨5, 3, false, 2⟩).consecutive_failures = 0 ∧
    get_backoff_delay
      ((adjust_concurrency (some 200) (some true) ⟨5, 3, false, 2⟩).consecutive_failures) = 0 :=
  c8_throttle_monotone_success_resets.2 ⟨5, 3, false, 2⟩ 200 (some true)
    (by decide) (by decide)

/-- C4: `is_cached(f)` returns true only if an entry for `f` exists in the
ledger, the file exists on disk, and its size exceeds the minimum-size
threshold (default 500 bytes); after `mark_cached(f)` and a flush,
`is_cached(f)` returns true while the file exists and exceeds the minimum
size; and when the file is missing or too small, the next `is_cached(f)`
call returns false and deletes the stale ledger entry. -/
theorem c4_cache_validity_selfheal :
    (∀ (disk : String → Option Nat) (st : CacheState) (f : String) (ms : Nat),
      (is_cached disk st f ms).1 = true →
      (dictLookup f st.cache).isSome = true ∧ ∃ sz, disk f = some sz ∧ ms < sz) ∧
    (∀ (disk : String → Option Nat) (st : CacheState) (f ts : String) (sz : Nat),
      disk f = some sz → 500 < sz →
      (is_cached disk (flush (mark_cached ts st f)) f).1 = true) ∧
    (∀ (disk : String → Option Nat) (st : CacheState) (f : String),
      (dictLookup f st.cache).isSome = true →
      (∀ sz, disk f = some sz → sz ≤ 500) →
      (is_cached disk st f).1 = false ∧
      dictLookup f (is_cached disk st f).2.cache = none) := by
  refine ⟨?_, ?_, ?_⟩
  · intro disk st f ms h
    unfold is_cached at h
    by_cases h1 : (dictLookup f st.cache).isNone = true
    · rw [if_pos h1] at h
      simp at h
    · rw [if_neg h1] at h
      have h2 : (dictLookup f st.cache).isSome = true := by
        cases hval : dictLookup f st.cache
        · simp [hval] at h1
        · simp
      refine ⟨h2, ?_⟩
      simp only [] at h
      cases hd : disk f with
      | none =>
          rw [hd] at h
          simp only [Bool.false_eq_true, if_false] at h
          split at h <;> simp at h
      | some sz =>
          rw [hd] at h
          by_cases hsz : ms < sz
          · exact ⟨sz, rfl, hsz⟩
          · simp only [decide_eq_false hsz, Bool.false_eq_true, if_false] at h
            split at h <;> simp at h
  · intro disk st f ts sz hd hsz
    have hlook : dictLookup f (flush (mark_cached ts st f)).cache = some ts := by
      rw [flush_cache_eq, mark_cached_cache_eq]
      exact dictLookup_dictInsert st.cache f ts
    unfold is_cached
    rw [if_neg (by simp [hlook])]
    simp only []
    rw [hd]
    simp [hsz]
  · intro disk st f hsome hsmall
    have hnone : ¬ (dictLookup f st.cache).isNone = true := by
      cases hval : dictLookup f st.cache
      · simp [hval] at hsome
      · simp
    unfold is_cached
    rw [if_neg hnone]
    simp only []
    have hok : (match disk f with
        | some size => decide (500 < size)
        | none => false) = false := by
      cases hd : disk f with
      | none => rfl
      | some sz =>
          have hle := hsmall sz hd
          simp [Nat.not_lt.mpr hle]
    rw [hok]
    simp only [Bool.false_eq_true, if_false]
    split <;> simp [dictLookup_dictErase]

/-- C4 witness: a marked and flushed entry whose file is 1000 bytes is
cached; then, with the file shrunk to 100 bytes, the lookup self-heals. -/
theorem c4_cache_validity_selfheal_witness :
    ((is_cached (fun _ => some 1000)
        (flush (mark_cached "2026-01-01T00:00:00" ⟨[], [], []⟩ "a.mp3")) "a.mp3").1 = true) ∧
    ((is_cached (fun _ => some 100) ⟨[("a.mp3", "2026-01-01T00:00:00")], [], []⟩ "a.mp3").1
        = false) ∧
    (dictLookup "a.mp3"
        (is_cached (fun _ => some 100)
          ⟨[("a.mp3", "2026-01-01T00:00:00")], [], []⟩ "a.mp3").2.cache = none) := by
  have h1 := c4_cache_validity_selfheal.2.1 (fun _ => some 1000) ⟨[], [], []⟩ "a.mp3"
    "2026-01-01T00:00:00" 1000 rfl (by decide)
  have h0 := c4_cache_validity_selfheal.1 (fun _ => some 1000)
    (flush (mark_cached "2026-01-01T00:00:00" ⟨[], [], []⟩ "a.mp3")) "a.mp3" 500 h1
  exact ⟨h1, c4_cache_validity_selfheal.2.2 (fun _ => some 100)
    ⟨[("a.mp3", "2026-01-01T00:00:00")], [], []⟩ "a.mp3" (by decide)
    (fun sz hsz => by cases hsz; decide)⟩

/-- C5: `generate_card_uuid` is a pure deterministic function of
`(word, pos, meaning, index, language)` — identical inputs give identical
identifiers — and changing the index alone (the homograph case) yields a
different identifier: unconditionally at the concrete homograph pair
below, and for arbitrary inputs whenever the truncated SHA-256 digests of
the two (always distinct) hash inputs do not collide. -/
theorem c5_uuid_deterministic_homograph :
    (∀ (w p m : String) (i : Nat) (l : String) (w2 p2 m2 : String) (i2 : Nat) (l2 : String),
      w = w2 → p = p2 → m = m2 → i = i2 → l = l2 →
      MediaPathGenerator.generate_card_uuid w p m i l
        = MediaPathGenerator.generate_card_uuid w2 p2 m2 i2 l2) ∧
    (∀ (w p m : String) (i j : Nat) (l : String),
      (sha256hex (MediaPathGenerator.unique_string w p m i)).toList.take 32
        ≠ (sha256hex (MediaPathGenerator.unique_string w p m j)).toList.take 32 →
      MediaPathGenerator.generate_card_uuid w p m i l
        ≠ MediaPathGenerator.generate_card_uuid w p m j l) ∧
    MediaPathGenerator.generate_card_uuid "Bank" "Substantiv" "sitzbank" 2 "DE"
      ≠ MediaPathGenerator.generate_card_uuid "Bank" "Substantiv" "sitzbank" 5 "DE" := by
  refine ⟨?_, ?_, ?_⟩
  · intro w p m i l w2 p2 m2 i2 l2 h1 h2 h3 h4 h5
    subst h1; subst h2; subst h3; subst h4; subst h5
    rfl
  · intro w p m i j l hne heq
    apply hne
    have hl := congrArg String.toList heq
    have ha : ∀ (x : List Char) (b c : String),
        (String.mk x ++ b ++ c).toList = x ++ (b.toList ++ c.toList) := by
      intro x b c
      show (x ++ b.toList) ++ c.toList = x ++ (b.toList ++ c.toList)
      exact List.append_assoc x b.toList c.toList
    unfold MediaPathGenerator.generate_card_uuid at hl
    simp only [] at hl
    rw [ha, ha] at hl
    exact List.append_cancel_right hl
  · decide

/-- C5 witness: the homograph-distinctness side applied at a concrete
duplicate word occupying two row positions; the no-collision hypothesis is
discharged by computing both digests. -/
theorem c5_uuid_deterministic_homograph_witness :
    MediaPathGenerator.generate_card_uuid "Bank" "Substantiv" "sitzbank" 2 "DE"
      = MediaPathGenerator.generate_card_uuid "Bank" "Substantiv" "sitzbank" 2 "DE" ∧
    MediaPathGenerator.generate_card_uuid "Bank" "Substantiv" "sitzbank" 2 "DE"
      ≠ MediaPathGenerator.generate_card_uuid "Bank" "Substantiv" "sitzbank" 5 "DE" :=
  ⟨c5_uuid_deterministic_homograph.1 "Bank" "Substantiv" "sitzbank" 2 "DE"
      "Bank" "Substantiv" "sitzbank" 2 "DE" rfl rfl rfl rfl rfl,
   c5_uuid_deterministic_homograph.2.1 "Bank" "Substantiv" "sitzbank" 2 5 "DE" (by decide)⟩

/-- C6: the spec's filename grammar `<kind>_<identifier>_<voice>_<version>.<ext>`
holds for the word-audio and the three sentence-audio filenames, but not
for the image filename, which is `_img_<identifier>.jpg` with neither a
voice slot nor a version tag; amended accordingly, with
`get_all_media_files` deriving all five names consistently. -/
theorem c6_filename_grammar :
    (∀ u vid : String, vid ≠ "" →
      MediaPathGenerator.audio_word u (some vid)
        = "_word_" ++ u ++ "_" ++ vid ++ "_" ++ MediaPathGenerator.VERSION ++ ".mp3" ∧
      (∀ i : Nat, MediaPathGenerator.audio_sentence u i (some vid)
        = "_sent_" ++ toString i ++ "_" ++ u ++ "_" ++ vid ++ "_"
            ++ MediaPathGenerator.VERSION ++ ".mp3")) ∧
    (∀ u : String, MediaPathGenerator.image u = "_img_" ++ u ++ ".jpg") ∧
    (∀ u : String, get_all_media_files u none =
      ⟨MediaPathGenerator.image u,
       MediaPathGenerator.audio_word u (some MediaPathGenerator.VOICE_ID),
       MediaPathGenerator.audio_sentence u 1 (some MediaPathGenerator.VOICE_ID),
       MediaPathGenerator.audio_sentence u 2 (some MediaPathGenerator.VOICE_ID),
       MediaPathGenerator.audio_sentence u 3 (some MediaPathGenerator.VOICE_ID)⟩) := by
  refine ⟨?_, fun u => rfl, fun u => rfl⟩
  intro u vid hvid
  constructor
  · simp [MediaPathGenerator.audio_word, MediaPathGenerator.resolveVoice, hvid]
    rfl
  · intro i
    simp [MediaPathGenerator.audio_sentence, MediaPathGenerator.resolveVoice, hvid]
    rfl

/-- C6 witness: the grammar side applied at a concrete identifier and the
configured voice. -/
theorem c6_filename_grammar_witness :
    MediaPathGenerator.audio_word "u0" (some "CONRAD")
      = "_word_" ++ "u0" ++ "_" ++ "CONRAD" ++ "_" ++ MediaPathGenerator.VERSION ++ ".mp3" ∧
    MediaPathGenerator.audio_sentence "u0" 2 (some "CONRAD")
      = "_sent_" ++ toString 2 ++ "_" ++ "u0" ++ "_" ++ "CONRAD" ++ "_"
          ++ MediaPathGenerator.VERSION ++ ".mp3" :=
  ⟨(c6_filename_grammar.1 "u0" "CONRAD" (by decide)).1,
   (c6_filename_grammar.1 "u0" "CONRAD" (by decide)).2 2⟩

/-- C6 counterexample: the image filename contains no version tag at all,
so it is not of the claimed `<kind>_<identifier>_<voice-or-none>_<version>.<ext>`
form. -/
theorem c6_image_filename_counterexample :
    MediaPathGenerator.image "abc" = "_img_abc.jpg" ∧
    containsSub MediaPathGenerator.VERSION.toList (MediaPathGenerator.image "abc").toList
      = false := by
  constructor <;> decide

/-- C10: an `ImageFetcher.fetch` call whose stripped prompt is empty or
shorter than 5 characters returns `False` immediately, makes no network
request, writes no file, and does not invoke the rate-tracker callback. -/
theorem c10_short_prompt_noop :
    ∀ (has_api_key : Bool) (attempts : Nat → ApiAttempt) (retries : Nat)
      (source output_path : String),
      pyStrip source = "" ∨ (pyStrip source).length < 5 →
      image_fetch has_api_key attempts retries source output_path = (false, noImageEffects) ∧
      (image_fetch has_api_key attempts retries source output_path).2.requests = 0 ∧
      (image_fetch has_api_key attempts retries source output_path).2.file_writes = [] ∧
      (image_fetch has_api_key attempts retries source output_path).2.signals = [] := by
  intro k a r src p h
  have hmain : image_fetch k a r src p = (false, noImageEffects) := by
    unfold image_fetch
    simp only []
    rw [if_pos h]
  refine ⟨hmain, ?_, ?_, ?_⟩ <;> rw [hmain] <;> rfl

/-- C10 witness: a two-character prompt is rejected with no effects. -/
theorem c10_short_prompt_noop_witness :
    image_fetch true (fun _ => ApiAttempt.ok true 5000 true) 5 " hi " "out.jpg"
      = (false, noImageEffects) :=
  (c10_short_prompt_noop true (fun _ => ApiAttempt.ok true 5000 true) 5 " hi " "out.jpg"
    (Or.inr (by decide))).1

/-- C3: the claim that an `AudioFetcher.fetch` call whose text is empty
after TTS cleaning is a no-op success-skip is wrong about the result: the
call does perform no synthesis, write no file and report nothing, but it
returns `False` — the caller counts it as an audio failure, not a
success. Amended: such a call is a no-op that returns `False` with no
effects. -/
theorem c3_empty_after_clean_noop_failure :
    ∀ (tts : String → TTSOutcome) (source output_path volume : String),
      pyStrip source = "" ∨ clean_for_tts source = "" →
      audio_fetch tts source output_path volume = (false, noAudioEffects) := by
  intro tts src p v h
  by_cases h1 : pyStrip src = ""
  · simp [audio_fetch, h1]
  · have h2 : clean_for_tts src = "" := h.resolve_left h1
    simp [audio_fetch, h1, h2]

/-- C3 witness: `"<br>"` cleans to the empty string and the call is a
no-effect `False`. -/
theorem c3_empty_after_clean_noop_failure_witness :
    audio_fetch (fun _ => TTSOutcome.ok 5000) "<br>" "out.mp3" "+0%"
      = (false, noAudioEffects) :=
  c3_empty_after_clean_noop_failure (fun _ => TTSOutcome.ok 5000) "<br>" "out.mp3" "+0%"
    (Or.inr (by decide))

/-- C3 counterexample: at the input `"<br>"` (empty after cleaning) the
fetch returns `False`, not a success result as claimed. -/
theorem c3_empty_after_clean_counterexample :
    clean_for_tts "<br>" = "" ∧
    (audio_fetch (fun _ => TTSOutcome.ok 5000) "<br>" "out.mp3" "+0%").1 = false := by
  constructor <;> decide

/-- C9: the claim that every completed fetch call reports its outcome to
the rate-signal tracker is wrong for the audio fetcher; amended: a
validated image fetch always reports its final outcome (success `200` or a
generic failure) and additionally reports each 429 it encounters, while
the audio fetcher reports a success after a completed write and a failure
on exception, but reports nothing for validation skips or when the
synthesized file does not exceed the 100-byte minimum. -/
theorem c9_outcome_reporting :
    (∀ (k : Bool) (api : Nat → ApiAttempt) (r : Nat) (src path : String),
      ¬(pyStrip src = "" ∨ (pyStrip src).length < 5) →
      (image_fetch k api r src path).2.signals.getLast?
        = some ⟨if (image_fetch k api r src path).1 then some 200 else none,
                some (image_fetch k api r src path).1⟩) ∧
    (∀ (api : Nat → ApiAttempt) (path : String) (rem a : Nat),
      api a = ApiAttempt.throttled429 →
      (downloadGo api path (rem + 1) a).2.signals
        = ⟨some 429, some false⟩ :: (downloadGo api path rem (a + 1)).2.signals) ∧
    (∀ (tts : String → TTSOutcome) (src path vol msg : String),
      pyStrip src ≠ "" → clean_for_tts src ≠ "" →
      (tts (clean_for_tts src) = TTSOutcome.err msg →
        (audio_fetch tts src path vol).2.signals.length = 1) ∧
      ((audio_fetch tts src path vol).1 = true →
        (audio_fetch tts src path vol).2.signals = [⟨some 200, some true⟩]) ∧
      (∀ size, tts (clean_for_tts src) = TTSOutcome.ok size → size ≤ 100 →
        (audio_fetch tts src path vol).2.signals = [])) := by
  refine ⟨?_, ?_, ?_⟩
  · intro k api r src path h
    unfold image_fetch
    simp only []
    rw [if_neg h]
    by_cases hr : (download_from_api k api r path).1 = true
    · simp only [hr, if_true]
      simp [List.getLast?_append_cons]
    · simp only [hr, Bool.false_eq_true, if_false]
      simp [List.getLast?_append_cons]
  · intro api path rem a ha
    conv_lhs => rw [downloadGo]
    simp [ha]
  · intro tts src path vol msg h1 h2
    refine ⟨?_, ?_, ?_⟩
    · intro herr
      unfold audio_fetch
      rw [if_neg h1]
      simp only []
      rw [if_neg h2]
      simp only [herr]
      split <;> rfl
    · intro htrue
      unfold audio_fetch at htrue ⊢
      rw [if_neg h1] at htrue ⊢
      simp only [] at htrue ⊢
      rw [if_neg h2] at htrue ⊢
      cases hox : tts (clean_for_tts src) with
      | ok size =>
          simp only [hox] at htrue ⊢
          by_cases hsz : 100 < size
          · rw [if_pos hsz]
          · rw [if_neg hsz] at htrue
            simp at htrue
      | err m =>
          simp only [hox] at htrue
          split at htrue <;> simp at htrue
    · intro size hok hsize
      unfold audio_fetch
      rw [if_neg h1]
      simp only []
      rw [if_neg h2]
      simp only [hok]
      rw [if_neg (by omega : ¬ 100 < size)]

/-- C9 witness: a validated image fetch whose attempts all 401 reports its
final failure; a 429 attempt produces a throttle report; a validated audio
fetch whose synthesis raises reports exactly one outcome. -/
theorem c9_outcome_reporting_witness :
    (image_fetch true (fun _ => ApiAttempt.auth401) 5 "a cat picture" "o.jpg").2.signals.getLast?
      = some ⟨if (image_fetch true (fun _ => ApiAttempt.auth401) 5 "a cat picture" "o.jpg").1
                then some 200 else none,
              some (image_fetch true (fun _ => ApiAttempt.auth401) 5 "a cat picture" "o.jpg").1⟩ ∧
    (downloadGo (fun _ => ApiAttempt.throttled429) "o.jpg" 3 0).2.signals
      = ⟨some 429, some false⟩
          :: (downloadGo (fun _ => ApiAttempt.throttled429) "o.jpg" 2 1).2.signals ∧
    (audio_fetch (fun _ => TTSOutcome.err "boom") "hello" "o.mp3" "+0%").2.signals.length = 1 :=
  ⟨c9_outcome_reporting.1 true (fun _ => ApiAttempt.auth401) 5 "a cat picture" "o.jpg"
      (by decide),
   c9_outcome_reporting.2.1 (fun _ => ApiAttempt.throttled429) "o.jpg" 2 0 rfl,
   (c9_outcome_reporting.2.2 (fun _ => TTSOutcome.err "boom") "hello" "o.mp3" "+0%" "boom"
      (by decide) (by decide)).1 rfl⟩

/-- C9 counterexample: a completed audio fetch that ran one synthesis call
and failed the minimum-size check returns `False` with no report to the
tracker. -/
theorem c9_unreported_outcome_counterexample :
    (audio_fetch (fun _ => TTSOutcome.ok 50) "hello" "out.mp3" "+0%").1 = false ∧
    (audio_fetch (fun _ => TTSOutcome.ok 50) "hello" "out.mp3" "+0%").2.synth_calls = 1 ∧
    (audio_fetch (fun _ => TTSOutcome.ok 50) "hello" "out.mp3" "+0%").2.signals = [] := by
  refine ⟨?_, ?_, ?_⟩ <;> decide

/-- C2: the claim that `images_success + images_failed` equals the number
of rows with a non-empty image prompt is wrong — a row with a non-empty
word and an empty prompt still settles exactly one image counter; amended:
over any run, `images_success + images_failed` and
`audio_word_success + audio_word_failed` each equal the number of rows
whose target word is non-empty after stripping, and
`audio_sent_success + audio_sent_failed` equals the total number of
non-empty sentences over those rows. -/
theorem c2_stats_conservation :
    ∀ (env : RowEnv) (rows : List (Nat × RowData)) (st : BuilderState),
      ((run_rows env st rows).stats.images_success + (run_rows env st rows).stats.images_failed
        = st.stats.images_success + st.stats.images_failed + countWordRows rows) ∧
      ((run_rows env st rows).stats.audio_word_success
          + (run_rows env st rows).stats.audio_word_failed
        = st.stats.audio_word_success + st.stats.audio_word_failed + countWordRows rows) ∧
      ((run_rows env st rows).stats.audio_sent_success
          + (run_rows env st rows).stats.audio_sent_failed
        = st.stats.audio_sent_success + st.stats.audio_sent_failed + totalSentences rows) :=
  fun env rows st => run_rows_conservation env rows st

/-- C2 counterexample: one row with the word `cat` and an empty image
prompt settles one image counter, while the claim's right-hand side (rows
with a non-empty image prompt) is zero. -/
theorem c2_stats_conservation_counterexample :
    (run_rows env0 BuilderState.init [(0, row0)]).stats.images_success
        + (run_rows env0 BuilderState.init [(0, row0)]).stats.images_failed = 1 ∧
    countPromptRows [(0, row0)] = 0 := by
  constructor <;> decide

/-- C7: a row-processing exception (modeled at the note-assembly site, the
remaining unexpected-exception point once fetch-task exceptions are folded
into results by `gather(..., return_exceptions=True)`) is caught at the
row boundary: `rows_failed` increments, a 50-character sample of the
failing word is recorded for the report, the row is dropped from the deck,
and the processor returns normally (it is a total function, and the row
was still counted as processed). -/
theorem c7_row_exception_contained :
    ∀ (env : RowEnv) (st : BuilderState) (i : Nat) (row : RowData),
      env.note_raises i = true → pyStrip row.TargetWord ≠ "" →
      (process_row env st i row).stats.rows_failed = st.stats.rows_failed + 1 ∧
      (process_row env st i row).stats.failed_words
        = st.stats.failed_words ++ [String.mk (row.TargetWord.toList.take 50)] ∧
      (process_row env st i row).deck = st.deck ∧
      (process_row env st i row).stats.words_processed = st.stats.words_processed + 1 := by
  intro env st i row hnr hw
  obtain ⟨_, _, _, d4, d5, _⟩ := process_row_stats_delta env st i row hw
  obtain ⟨r1, r2, r3⟩ := d5 hnr
  exact ⟨r1, r2, r3, d4⟩

/-- C7 witness: the exception-injecting environment applied to the `cat`
row over the initial state. -/
theorem c7_row_exception_contained_witness :
    (process_row env1 BuilderState.init 0 row0).stats.rows_failed
      = BuilderState.init.stats.rows_failed + 1 ∧
    (process_row env1 BuilderState.init 0 row0).stats.failed_words
      = BuilderState.init.stats.failed_words
          ++ [String.mk (row0.TargetWord.toList.take 50)] ∧
    (process_row env1 BuilderState.init 0 row0).deck = BuilderState.init.deck ∧
    (process_row env1 BuilderState.init 0 row0).stats.words_processed
      = BuilderState.init.stats.words_processed + 1 :=
  c7_row_exception_contained env1 BuilderState.init 0 row0 rfl (by decide)

end AnkiTect
